import Mathlib

/-
Verification of the PyStateMachine deterministic finite-state-machine engine
(src/state_machine.py). The Python code is shallowly embedded:

* Python states are modelled as values of type `Option S`: `none` stands for
  the Python object `None` (which is hashable and may itself be registered as
  a state), `some s` for any other state value.
* Python tokens are modelled as `Tok T`: `Tok.val t` is an ordinary hashable
  token, `Tok.ell` is the `Ellipsis` object `...` that the engine uses as the
  wildcard transition key.  In this embedding every token value is hashable,
  so the `isinstance(x, Hashable)` checks of the source always pass.
* Python dicts are modelled as insertion-ordered association lists
  (`List (K × V)`) with lookup, update-or-append and delete operations;
  this mirrors the insertion-order iteration semantics of Python dicts.
* Exceptions are modelled with an error type `Err` whose constructors keep
  the exception class together with the message family used by the source.
* Callbacks are opaque values of a type `C`; a callback that raises is
  modelled by a predicate `raises : C → Bool` passed to the feed function.
-/

set_option autoImplicit false

namespace PyStateMachine

/-- A Python value used as a token: either an ordinary value or the
`Ellipsis` object, which `feed` uses as the wildcard transition key. -/
inductive Tok (T : Type) where
  | val (t : T)
  | ell
  deriving DecidableEq, Repr

/-- The Python exceptions raised by the source, keyed by exception class and
message family (the source distinguishes several `KeyError` / `ValueError`
messages; we keep them apart so that statements can talk about a specific
failure). `zipStrict` is the `ValueError` raised by `zip(..., strict=True)`
on length mismatch; `callbackRaised` stands for an arbitrary exception
propagating out of a user callback. -/
inductive Err where
  | typeError
  | stateExists
  | stateNotFound
  | transitionExists
  | transitionNotFound
  | handleNotFound
  | initialExists
  | invalidToken
  | noInitialState
  | keyErrorLookup
  | zipStrict
  | callbackRaised
  deriving DecidableEq, Repr

/-- Translated from class `TransitionEvent`: the value object handed to every
callback of one transition. -/
structure TransitionEvent (S T P : Type) where
  entered_state : Option S
  exited_state : Option S
  entered_state_is_terminal : Bool
  token : Tok T
  feed_count : Nat
  transition_count : Nat
  payload : P
  deriving DecidableEq, Repr

/-- Lookup in a Python dict modelled as an association list: the value bound
to the first (and, for dicts built through the API, only) occurrence of the
key. -/
def dlookup {K V : Type} [DecidableEq K] : List (K × V) → K → Option V
  | [], _ => none
  | (k, v) :: d, k0 => if k0 = k then some v else dlookup d k0

/-- Python dict assignment `d[k] = v`: replace in place if the key is
present, otherwise append (new keys go to the end of the iteration order). -/
def dset {K V : Type} [DecidableEq K] : List (K × V) → K → V → List (K × V)
  | [], k0, v0 => [(k0, v0)]
  | (k, v) :: d, k0, v0 =>
    if k0 = k then (k0, v0) :: d else (k, v) :: dset d k0 v0

/-- Python `del d[k]`: remove the first binding of the key. -/
def derase {K V : Type} [DecidableEq K] : List (K × V) → K → List (K × V)
  | [], _ => []
  | (k, v) :: d, k0 => if k0 = k then d else (k, v) :: derase d k0

/-- Iteration over a Python dict (`for k in d`): the keys in insertion
order. -/
def dkeys {K V : Type} (d : List (K × V)) : List K :=
  d.map Prod.fst

/-- Python `d.values()`: the values in insertion order. -/
def dvalues {K V : Type} (d : List (K × V)) : List V :=
  d.map Prod.snd

/-- Translated from class `DeterministicFiniteStateMachine`: all instance
fields. States are `Option S` (`none` = Python `None`), transition keys are
`(state, token)` pairs, callback buckets are handle-indexed dicts. -/
structure DFSM (S T C : Type) where
  is_terminal : List (Option S × Bool)
  transitions : List ((Option S × Tok T) × Option S)
  exit_callbacks : List (Option S × List (Nat × C))
  enter_callbacks : List (Option S × List (Nat × C))
  transition_callbacks : List ((Option S × Tok T) × List (Nat × C))
  enter_termination_callbacks : List (Nat × C)
  exit_termination_callbacks : List (Nat × C)
  enter_initial_callbacks : List (Nat × C)
  exit_initial_callbacks : List (Nat × C)
  always_callbacks : List (Nat × C)
  initial_state : Option S
  current_state : Option S
  feed_count : Nat
  transition_count : Nat
  next_handle : Nat
  raise_on_invalid_token : Bool
  deriving DecidableEq, Repr

/-- Translated from `DeterministicFiniteStateMachine.__init__`. -/
def DFSM.init {S T C : Type} (raise_on_invalid_token : Bool) : DFSM S T C :=
  { is_terminal := []
    transitions := []
    exit_callbacks := []
    enter_callbacks := []
    transition_callbacks := []
    enter_termination_callbacks := []
    exit_termination_callbacks := []
    enter_initial_callbacks := []
    exit_initial_callbacks := []
    always_callbacks := []
    initial_state := none
    current_state := none
    feed_count := 0
    transition_count := 0
    next_handle := 0
    raise_on_invalid_token := raise_on_invalid_token }

variable {S T C P : Type} [DecidableEq S] [DecidableEq T]

/-- Translated from `_raise_on_state`: the hashability check always passes in
this embedding; membership in `_is_terminal` is checked. -/
def raise_on_state (m : DFSM S T C) (state : Option S) : Except Err Unit :=
  if (dlookup m.is_terminal state).isSome then Except.ok ()
  else Except.error Err.stateNotFound

/-- Translated from `_raise_on_transition` (when called with its two
arguments, which `bind_callback_at_transition` does). -/
def raise_on_transition (m : DFSM S T C) (state : Option S) (token : Tok T) :
    Except Err Unit :=
  match raise_on_state m state with
  | Except.error e => Except.error e
  | Except.ok _ =>
    if (dlookup m.transitions (state, token)).isSome then Except.ok ()
    else Except.error Err.transitionNotFound

/-- Translated from `add_state`.  Note the source guard
`is_initial and self._initial_state is not None`: registering Python `None`
as the initial state leaves `_initial_state` equal to `None`, so the
duplicate-initial check compares against `none` exactly as the source does. -/
def add_state (m : DFSM S T C) (state : Option S)
    (is_terminal : Bool) (is_initial : Bool) : Except Err (DFSM S T C) :=
  if (dlookup m.is_terminal state).isSome then
    Except.error Err.stateExists
  else if is_initial = true ∧ m.initial_state ≠ none then
    Except.error Err.initialExists
  else
    let m1 := { m with is_terminal := dset m.is_terminal state is_terminal }
    let m2 :=
      if is_initial then
        { m1 with initial_state := state, current_state := state }
      else m1
    Except.ok
      { m2 with
        enter_callbacks := dset m2.enter_callbacks state []
        exit_callbacks := dset m2.exit_callbacks state [] }

/-- Translated from `add_transition`. -/
def add_transition (m : DFSM S T C) (exited_state entered_state : Option S)
    (token : Tok T) : Except Err (DFSM S T C) :=
  match raise_on_state m exited_state with
  | Except.error e => Except.error e
  | Except.ok _ =>
    match raise_on_state m entered_state with
    | Except.error e => Except.error e
    | Except.ok _ =>
      if (dlookup m.transitions (exited_state, token)).isSome then
        Except.error Err.transitionExists
      else
        Except.ok
          { m with
            transitions := dset m.transitions (exited_state, token) entered_state
            transition_callbacks :=
              dset m.transition_callbacks (exited_state, token) [] }

/-- Translated from `_bind_callback` specialized by each public bind method:
stores the callback under the fresh handle (a new dict key, hence appended)
and bumps the engine-wide handle counter; the handle is returned. -/
def bind_callback_always (m : DFSM S T C) (callback : C) : Nat × DFSM S T C :=
  (m.next_handle,
    { m with
      always_callbacks := dset m.always_callbacks m.next_handle callback
      next_handle := m.next_handle + 1 })

/-- Translated from `bind_callback_at_enter_termination`. -/
def bind_callback_at_enter_termination (m : DFSM S T C) (callback : C) :
    Nat × DFSM S T C :=
  (m.next_handle,
    { m with
      enter_termination_callbacks :=
        dset m.enter_termination_callbacks m.next_handle callback
      next_handle := m.next_handle + 1 })

/-- Translated from `bind_callback_at_exit_termination`. -/
def bind_callback_at_exit_termination (m : DFSM S T C) (callback : C) :
    Nat × DFSM S T C :=
  (m.next_handle,
    { m with
      exit_termination_callbacks :=
        dset m.exit_termination_callbacks m.next_handle callback
      next_handle := m.next_handle + 1 })

/-- Translated from `bind_callback_at_enter_initial`. -/
def bind_callback_at_enter_initial (m : DFSM S T C) (callback : C) :
    Nat × DFSM S T C :=
  (m.next_handle,
    { m with
      enter_initial_callbacks :=
        dset m.enter_initial_callbacks m.next_handle callback
      next_handle := m.next_handle + 1 })

/-- Translated from `bind_callback_at_exit_initial`. -/
def bind_callback_at_exit_initial (m : DFSM S T C) (callback : C) :
    Nat × DFSM S T C :=
  (m.next_handle,
    { m with
      exit_initial_callbacks :=
        dset m.exit_initial_callbacks m.next_handle callback
      next_handle := m.next_handle + 1 })

/-- Translated from `bind_callback_at_enter`: checks the state, then binds in
that state's enter bucket (present for every registered state; the embedding
defaults a missing bucket to the empty dict). -/
def bind_callback_at_enter (m : DFSM S T C) (state : Option S) (callback : C) :
    Except Err (Nat × DFSM S T C) :=
  match raise_on_state m state with
  | Except.error e => Except.error e
  | Except.ok _ =>
    let bucket := (dlookup m.enter_callbacks state).getD []
    Except.ok
      (m.next_handle,
        { m with
          enter_callbacks :=
            dset m.enter_callbacks state (dset bucket m.next_handle callback)
          next_handle := m.next_handle + 1 })

/-- Translated from `bind_callback_at_exit`. -/
def bind_callback_at_exit (m : DFSM S T C) (state : Option S) (callback : C) :
    Except Err (Nat × DFSM S T C) :=
  match raise_on_state m state with
  | Except.error e => Except.error e
  | Except.ok _ =>
    let bucket := (dlookup m.exit_callbacks state).getD []
    Except.ok
      (m.next_handle,
        { m with
          exit_callbacks :=
            dset m.exit_callbacks state (dset bucket m.next_handle callback)
          next_handle := m.next_handle + 1 })

/-- Translated from `bind_callback_at_transition`. -/
def bind_callback_at_transition (m : DFSM S T C) (state : Option S)
    (token : Tok T) (callback : C) : Except Err (Nat × DFSM S T C) :=
  match raise_on_transition m state token with
  | Except.error e => Except.error e
  | Except.ok _ =>
    let bucket := (dlookup m.transition_callbacks (state, token)).getD []
    Except.ok
      (m.next_handle,
        { m with
          transition_callbacks :=
            dset m.transition_callbacks (state, token)
              (dset bucket m.next_handle callback)
          next_handle := m.next_handle + 1 })

/-- Translated from `_unbind_callback`: raises the handle `KeyError` when the
handle is not bound in the given bucket, otherwise deletes it. -/
def unbind_callback (callbacks : List (Nat × C)) (handle : Nat) :
    Except Err (List (Nat × C)) :=
  if (dlookup callbacks handle).isSome then Except.ok (derase callbacks handle)
  else Except.error Err.handleNotFound

/-- Translated from `unbind_callback_always`. -/
def unbind_callback_always (m : DFSM S T C) (handle : Nat) :
    Except Err (DFSM S T C) :=
  match unbind_callback m.always_callbacks handle with
  | Except.error e => Except.error e
  | Except.ok d => Except.ok { m with always_callbacks := d }

/-- Translated from `unbind_callback_at_enter_termination`. -/
def unbind_callback_at_enter_termination (m : DFSM S T C) (handle : Nat) :
    Except Err (DFSM S T C) :=
  match unbind_callback m.enter_termination_callbacks handle with
  | Except.error e => Except.error e
  | Except.ok d => Except.ok { m with enter_termination_callbacks := d }

/-- Translated from `unbind_callback_at_exit_termination`. -/
def unbind_callback_at_exit_termination (m : DFSM S T C) (handle : Nat) :
    Except Err (DFSM S T C) :=
  match unbind_callback m.exit_termination_callbacks handle with
  | Except.error e => Except.error e
  | Except.ok d => Except.ok { m with exit_termination_callbacks := d }

/-- Translated from `unbind_callback_at_enter_initial`. -/
def unbind_callback_at_enter_initial (m : DFSM S T C) (handle : Nat) :
    Except Err (DFSM S T C) :=
  match unbind_callback m.enter_initial_callbacks handle with
  | Except.error e => Except.error e
  | Except.ok d => Except.ok { m with enter_initial_callbacks := d }

/-- Translated from `unbind_callback_at_exit_initial`. -/
def unbind_callback_at_exit_initial (m : DFSM S T C) (handle : Nat) :
    Except Err (DFSM S T C) :=
  match unbind_callback m.exit_initial_callbacks handle with
  | Except.error e => Except.error e
  | Except.ok d => Except.ok { m with exit_initial_callbacks := d }

/-- Translated from `unbind_callback_at_enter`. -/
def unbind_callback_at_enter (m : DFSM S T C) (state : Option S)
    (handle : Nat) : Except Err (DFSM S T C) :=
  match raise_on_state m state with
  | Except.error e => Except.error e
  | Except.ok _ =>
    let bucket := (dlookup m.enter_callbacks state).getD []
    match unbind_callback bucket handle with
    | Except.error e => Except.error e
    | Except.ok d =>
      Except.ok { m with enter_callbacks := dset m.enter_callbacks state d }

/-- Translated from `unbind_callback_at_exit`. -/
def unbind_callback_at_exit (m : DFSM S T C) (state : Option S)
    (handle : Nat) : Except Err (DFSM S T C) :=
  match raise_on_state m state with
  | Except.error e => Except.error e
  | Except.ok _ =>
    let bucket := (dlookup m.exit_callbacks state).getD []
    match unbind_callback bucket handle with
    | Except.error e => Except.error e
    | Except.ok d =>
      Except.ok { m with exit_callbacks := dset m.exit_callbacks state d }

/-- Translated from `unbind_callback_at_transition`.  The source body begins
with `self._raise_on_transition()` — a call without the two required
positional arguments `state` and `token` — which raises `TypeError`
unconditionally before any handle lookup, so the method can never unbind
anything. -/
def unbind_callback_at_transition (m : DFSM S T C) (state : Option S)
    (token : Tok T) (handle : Nat) : Except Err (DFSM S T C) :=
  Except.error Err.typeError

/-- Translated from `_callback_generator` (the generator is consumed before
`_current_state` is reassigned, so every bucket is read against the exited
state).  `values()` iterates in insertion order.  The per-state and
per-transition buckets exist for every registered state and transition; the
embedding defaults a missing bucket to the empty dict, and reads
`_is_terminal` with default `false` where the source uses a plain `[]`
lookup on a key known to be present.  The source also filters out callbacks
that are the object `None`; callback values of type `C` model the callables,
for which that filter is the identity. -/
def callback_generator (m : DFSM S T C) (next_state : Option S)
    (token : Tok T) : List C :=
  dvalues m.always_callbacks
    ++ dvalues ((dlookup m.exit_callbacks m.current_state).getD [])
    ++ dvalues ((dlookup m.transition_callbacks (m.current_state, token)).getD [])
    ++ dvalues ((dlookup m.enter_callbacks next_state).getD [])
    ++ (if (dlookup m.is_terminal m.current_state).getD false then
          dvalues m.exit_termination_callbacks
        else [])
    ++ (if m.current_state = m.initial_state then
          dvalues m.exit_initial_callbacks
        else [])
    ++ (if (dlookup m.is_terminal next_state).getD false then
          dvalues m.enter_termination_callbacks
        else [])
    ++ (if next_state = m.initial_state then
          dvalues m.enter_initial_callbacks
        else [])

/-- Python `self._transitions.get(key, None)`: returns the stored target
state, or Python `None` when the key is absent.  Because the stored target
may itself be the Python `None` state, `get` conflates "key absent" with
"key maps to the state `None`" — both give `none`. -/
def transitions_get (m : DFSM S T C) (key : Option S × Tok T) : Option S :=
  (dlookup m.transitions key).getD none

/-- The two-tier lookup inlined in `feed` (lines 600-610): the exact key
first; if that `get` yields `None`, retry with `token_ = ...` (the wildcard);
the resolved key is remembered in `token_`.  Returns the resolved key and
the (necessarily non-`None`) target. -/
def resolve (m : DFSM S T C) (token : Tok T) : Option (Tok T × S) :=
  match transitions_get m (m.current_state, token) with
  | some s => some (token, s)
  | none =>
    match transitions_get m (m.current_state, Tok.ell) with
    | some s => some (Tok.ell, s)
    | none => none

/-- The observable outcome of one `feed` call:
* `err e mm` — the call raised the engine exception `e`, leaving machine `mm`;
* `rejected mm` — no transition matched and the call returned `False`;
* `raised c ev done mm` — a matched transition began dispatch, the callbacks
  `done` (each paired with the event it received) completed, then callback
  `c` raised; the exception propagates and `mm` is the machine at that point;
* `accepted ev invoked mm` — the call returned `True` after invoking
  `invoked` in order (each paired with the event it received). -/
inductive FeedOutcome (S T C P : Type) where
  | err (e : Err) (machine : DFSM S T C)
  | rejected (machine : DFSM S T C)
  | raised (callback : C) (event : TransitionEvent S T P)
      (done : List (C × TransitionEvent S T P)) (machine : DFSM S T C)
  | accepted (event : TransitionEvent S T P)
      (invoked : List (C × TransitionEvent S T P)) (machine : DFSM S T C)
  deriving DecidableEq, Repr

/-- Runs the list comprehension
`[callback(transition_event) for callback in generator]`: invokes the
callbacks left to right with the one event, stopping at the first callback
whose invocation raises.  Returns the completed invocations and the raising
callback, if any. -/
def run_callbacks (raises : C → Bool) (ev : TransitionEvent S T P) :
    List C → List (C × TransitionEvent S T P) × Option C
  | [] => ([], none)
  | c :: cs =>
    if raises c then ([], some c)
    else
      let r := run_callbacks raises ev cs
      ((c, ev) :: r.1, r.2)

/-- Translated from `feed`, parameterized by which callbacks raise when
invoked.  Field accesses of the source are read off `m` where the
intermediate machine differs from `m` only in counter fields the access does
not touch.  The event's terminal flag reads `_is_terminal[next_state]` with
default `false`; the key is present whenever the tables were built through
`add_transition`. -/
def feedR (raises : C → Bool) (m : DFSM S T C) (token : Tok T) (payload : P) :
    FeedOutcome S T C P :=
  if m.initial_state = none then FeedOutcome.err Err.noInitialState m
  else
    let m1 := { m with feed_count := m.feed_count + 1 }
    match resolve m token with
    | none =>
      if m.raise_on_invalid_token then FeedOutcome.err Err.invalidToken m1
      else FeedOutcome.rejected m1
    | some (token2, ns) =>
      let m2 := { m1 with transition_count := m1.transition_count + 1 }
      let next_state : Option S := some ns
      let ev : TransitionEvent S T P :=
        { entered_state := next_state
          exited_state := m.current_state
          entered_state_is_terminal := (dlookup m.is_terminal next_state).getD false
          token := token2
          feed_count := m2.feed_count
          transition_count := m2.transition_count
          payload := payload }
      let r := run_callbacks raises ev (callback_generator m next_state token2)
      match r.2 with
      | some c => FeedOutcome.raised c ev r.1 m2
      | none => FeedOutcome.accepted ev r.1 { m2 with current_state := next_state }

/-- `feed` with callbacks that do not raise. -/
def feed (m : DFSM S T C) (token : Tok T) (payload : P) : FeedOutcome S T C P :=
  feedR (fun _ => false) m token payload

/-- The machine state after a `feed` call, in every outcome (for a raising
outcome: the state observable by the caller catching the exception). -/
def out_machine : FeedOutcome S T C P → DFSM S T C
  | FeedOutcome.err _ mm => mm
  | FeedOutcome.rejected mm => mm
  | FeedOutcome.raised _ _ _ mm => mm
  | FeedOutcome.accepted _ _ mm => mm

/-- The transition event of a matched `feed` call, if any. -/
def out_event : FeedOutcome S T C P → Option (TransitionEvent S T P)
  | FeedOutcome.err _ _ => none
  | FeedOutcome.rejected _ => none
  | FeedOutcome.raised _ ev _ _ => some ev
  | FeedOutcome.accepted ev _ _ => some ev

/-- Whether the `feed` call returned `True`. -/
def out_accepted : FeedOutcome S T C P → Bool
  | FeedOutcome.accepted _ _ _ => true
  | _ => false

/-- Whether the `feed` call ended with a callback raising. -/
def out_raised : FeedOutcome S T C P → Bool
  | FeedOutcome.raised _ _ _ _ => true
  | _ => false

/-- `feed` as the caller of `feed_many` sees it: a boolean, or a propagated
exception; either way the machine it left behind. -/
def feedE (m : DFSM S T C) (token : Tok T) (payload : P) :
    Except (Err × DFSM S T C) (Bool × DFSM S T C) :=
  match feed m token payload with
  | FeedOutcome.err e mm => Except.error (e, mm)
  | FeedOutcome.rejected mm => Except.ok (false, mm)
  | FeedOutcome.raised _ _ _ mm => Except.error (Err.callbackRaised, mm)
  | FeedOutcome.accepted _ _ mm => Except.ok (true, mm)

/-- Translated from the `feed_many` list comprehension over
`zip(tokens, payloads, strict=True)`: pairs are consumed and fed left to
right; when one list runs out while the other does not, `zip` raises its
length-mismatch `ValueError` at that point — after the feeds already
performed. -/
def zip_strict_feed (m : DFSM S T C) :
    List (Tok T) → List P →
    Except (Err × DFSM S T C) (List Bool × DFSM S T C)
  | [], [] => Except.ok ([], m)
  | [], _ :: _ => Except.error (Err.zipStrict, m)
  | _ :: _, [] => Except.error (Err.zipStrict, m)
  | t :: ts, p :: ps =>
    match feedE m t p with
    | Except.error e => Except.error e
    | Except.ok (b, m2) =>
      match zip_strict_feed m2 ts ps with
      | Except.error e => Except.error e
      | Except.ok (bs, m3) => Except.ok (b :: bs, m3)

/-- Translated from `feed_many`: when `payloads` is `None` it is replaced by
`[None] * len(tokens)` (the default payload is `default : P`; instantiating
`P` with an option type makes it Python `None`). -/
def feed_many [Inhabited P] (m : DFSM S T C) (tokens : List (Tok T))
    (payloads : Option (List P)) :
    Except (Err × DFSM S T C) (List Bool × DFSM S T C) :=
  match payloads with
  | none => zip_strict_feed m tokens (List.replicate tokens.length (default : P))
  | some ps => zip_strict_feed m tokens ps

/-- Sequential feeding of token/payload pairs, the reference behavior the
spec describes for `feed_many`: the i-th result is the return value of
`feed` on the i-th token with the i-th payload, applied to the machine the
previous feeds produced. -/
def feedSeq (m : DFSM S T C) :
    List (Tok T × P) → Except (Err × DFSM S T C) (List Bool × DFSM S T C)
  | [] => Except.ok ([], m)
  | (t, p) :: rest =>
    match feedE m t p with
    | Except.error e => Except.error e
    | Except.ok (b, m2) =>
      match feedSeq m2 rest with
      | Except.error e => Except.error e
      | Except.ok (bs, m3) => Except.ok (b :: bs, m3)

/-- The error of a `feed_many` result, if it raised. -/
def fm_err (r : Except (Err × DFSM S T C) (List Bool × DFSM S T C)) :
    Option Err :=
  match r with
  | Except.error (e, _) => some e
  | Except.ok _ => none

/-- The machine a `feed_many` call left behind (also on error). -/
def fm_machine (r : Except (Err × DFSM S T C) (List Bool × DFSM S T C)) :
    DFSM S T C :=
  match r with
  | Except.error (_, mm) => mm
  | Except.ok (_, mm) => mm

/-- The list of booleans a successful `feed_many` returned. -/
def fm_results (r : Except (Err × DFSM S T C) (List Bool × DFSM S T C)) :
    Option (List Bool) :=
  match r with
  | Except.error _ => none
  | Except.ok (bs, _) => some bs

/-- Translated from `reset`. -/
def reset (m : DFSM S T C) : DFSM S T C :=
  { m with
    current_state := m.initial_state
    feed_count := 0
    transition_count := 0 }

/-- Translated from the `is_terminated` property:
`self._is_terminal[self._current_state]` is a plain `[]` lookup and raises
`KeyError` when the current state is not a registered state (notably when it
is the startup value `None`). -/
def is_terminated (m : DFSM S T C) : Except Err Bool :=
  match dlookup m.is_terminal m.current_state with
  | some b => Except.ok b
  | none => Except.error Err.keyErrorLookup

/-- Translated from the `is_initial` property. -/
def is_initial (m : DFSM S T C) : Bool :=
  m.current_state = m.initial_state

/-- Translated from the `state_amount` property. -/
def state_amount (m : DFSM S T C) : Nat :=
  m.is_terminal.length

/-- Translated from the `transition_amount` property. -/
def transition_amount (m : DFSM S T C) : Nat :=
  m.transitions.length

/-- Translated from the dataclass
`_PicklableDeterministicFiniteStateMachine`: the picklable projection of an
engine (the snapshot data contract).  Callback buckets and the handle
counter are not part of it. -/
structure PicklableDFSM (S T : Type) where
  is_terminal : List (Option S × Bool)
  transitions : List ((Option S × Tok T) × Option S)
  initial_state : Option S
  current_state : Option S
  feed_count : Nat
  transition_count : Nat
  raise_on_invalid_token : Bool
  deriving DecidableEq, Repr

/-- Translated from
`_PicklableDeterministicFiniteStateMachine.from_state_machine`. -/
def from_state_machine (m : DFSM S T C) : PicklableDFSM S T :=
  { is_terminal := m.is_terminal
    transitions := m.transitions
    initial_state := m.initial_state
    current_state := m.current_state
    feed_count := m.feed_count
    transition_count := m.transition_count
    raise_on_invalid_token := m.raise_on_invalid_token }

/-- Translated from
`_PicklableDeterministicFiniteStateMachine.to_state_machine`: a fresh engine
(`DeterministicFiniteStateMachine()`), the seven snapshot fields assigned,
then one empty callback bucket per known state (enter and exit) and one per
known transition.  The source fills the enter and exit buckets inside a
single loop over the states; the two interleaved assignment sequences
produce the same two dicts as one loop per dict, which is how they are
written here. -/
def to_state_machine (C : Type) (p : PicklableDFSM S T) : DFSM S T C :=
  let m0 : DFSM S T C := DFSM.init false
  { m0 with
    is_terminal := p.is_terminal
    transitions := p.transitions
    initial_state := p.initial_state
    current_state := p.current_state
    feed_count := p.feed_count
    transition_count := p.transition_count
    raise_on_invalid_token := p.raise_on_invalid_token
    enter_callbacks :=
      (dkeys p.is_terminal).foldl (fun d s => dset d s []) []
    exit_callbacks :=
      (dkeys p.is_terminal).foldl (fun d s => dset d s []) []
    transition_callbacks :=
      (dkeys p.transitions).foldl (fun d k => dset d k []) [] }

/-- One client operation on an engine, for behavioral comparison of two
engines: a feed (with its token and payload), a reset, or one of the read
accessors. -/
inductive Op (T P : Type) where
  | feedOp (token : Tok T) (payload : P)
  | resetOp
  | currentStateOp
  | isTerminatedOp
  | isInitialOp
  | feedCountOp
  | transitionCountOp
  | stateAmountOp
  | transitionAmountOp
  deriving DecidableEq, Repr

/-- What one operation returns to the caller (or raises). -/
inductive Obs (S : Type) where
  | boolObs (b : Bool)
  | errObs (e : Err)
  | stateObs (s : Option S)
  | natObs (n : Nat)
  | unitObs
  deriving DecidableEq, Repr

/-- Runs one operation, yielding its observation and the next machine. -/
def run_op (m : DFSM S T C) : Op T P → Obs S × DFSM S T C
  | Op.feedOp t p =>
    match feedE m t p with
    | Except.error (e, mm) => (Obs.errObs e, mm)
    | Except.ok (b, mm) => (Obs.boolObs b, mm)
  | Op.resetOp => (Obs.unitObs, reset m)
  | Op.currentStateOp => (Obs.stateObs m.current_state, m)
  | Op.isTerminatedOp =>
    (match is_terminated m with
     | Except.ok b => Obs.boolObs b
     | Except.error e => Obs.errObs e, m)
  | Op.isInitialOp => (Obs.boolObs (is_initial m), m)
  | Op.feedCountOp => (Obs.natObs m.feed_count, m)
  | Op.transitionCountOp => (Obs.natObs m.transition_count, m)
  | Op.stateAmountOp => (Obs.natObs (state_amount m), m)
  | Op.transitionAmountOp => (Obs.natObs (transition_amount m), m)

/-- Runs a sequence of operations, collecting the observations. -/
def run_ops (m : DFSM S T C) : List (Op T P) → List (Obs S) × DFSM S T C
  | [] => ([], m)
  | op :: ops =>
    let r := run_op m op
    let r2 := run_ops r.2 ops
    (r.1 :: r2.1, r2.2)

/-- Agreement of two engines on every field the snapshot carries (everything
`feed`, `reset` and the accessors read or report, except callback buckets). -/
def coreEq (m1 m2 : DFSM S T C) : Prop :=
  m1.is_terminal = m2.is_terminal ∧
  m1.transitions = m2.transitions ∧
  m1.initial_state = m2.initial_state ∧
  m1.current_state = m2.current_state ∧
  m1.feed_count = m2.feed_count ∧
  m1.transition_count = m2.transition_count ∧
  m1.raise_on_invalid_token = m2.raise_on_invalid_token

/-- A table-building call: `add_state` with its flags, or `add_transition`. -/
inductive BuildOp (S T : Type) where
  | addStateOp (state : Option S) (is_terminal is_initial : Bool)
  | addTransitionOp (exited entered : Option S) (token : Tok T)
  deriving DecidableEq, Repr

/-- Applies building calls in order; a call that raises leaves the machine
unchanged (both builder methods validate before they mutate anything). -/
def apply_build (m : DFSM S T C) : List (BuildOp S T) → DFSM S T C
  | [] => m
  | op :: ops =>
    let m2 :=
      match op with
      | BuildOp.addStateOp s t i =>
        match add_state m s t i with
        | Except.ok mm => mm
        | Except.error _ => m
      | BuildOp.addTransitionOp a b tok =>
        match add_transition m a b tok with
        | Except.ok mm => mm
        | Except.error _ => m
    apply_build m2 ops

/-- A building call that neither registers an initial state nor registers
Python `None` as a state. -/
def benign (op : BuildOp S T) : Bool :=
  match op with
  | BuildOp.addStateOp s _ i => !i && s.isSome
  | BuildOp.addTransitionOp _ _ _ => true

/-- Example machine exercising the wildcard lookup against a transition
whose target is the Python `None` state: built by `add_state(0,
is_initial=True)`, `add_state(None)`, `add_transition(0, None, 0)` and
`add_transition(0, 0, ...)`. -/
def mC2 : DFSM Nat Nat Nat :=
  (do
    let m0 : DFSM Nat Nat Nat := DFSM.init false
    let m1 ← add_state m0 (some 0) false true
    let m2 ← add_state m1 none false false
    let m3 ← add_transition m2 (some 0) none (Tok.val 0)
    let m4 ← add_transition m3 (some 0) (some 0) Tok.ell
    pure m4).toOption.getD (DFSM.init false)

/-- Example machine with one transition `0 --7--> 1` and one always-callback
(the callback value `100`), used to observe a callback that raises. -/
def mC5 : DFSM Nat Nat Nat :=
  (do
    let m0 : DFSM Nat Nat Nat := DFSM.init false
    let m1 ← add_state m0 (some 0) false true
    let m2 ← add_state m1 (some 1) false false
    let m3 ← add_transition m2 (some 0) (some 1) (Tok.val 7)
    pure (bind_callback_always m3 100).2).toOption.getD (DFSM.init false)

/-- Example machine with transitions `0 --1--> 1` and `1 --1--> 1`, used for
the `feed_many` length-mismatch behavior. -/
def mC6 : DFSM Nat Nat Nat :=
  (do
    let m0 : DFSM Nat Nat Nat := DFSM.init false
    let m1 ← add_state m0 (some 0) false true
    let m2 ← add_state m1 (some 1) false false
    let m3 ← add_transition m2 (some 0) (some 1) (Tok.val 1)
    let m4 ← add_transition m3 (some 1) (some 1) (Tok.val 1)
    pure m4).toOption.getD (DFSM.init false)

/-- Example machine with a transition `1 --0--> 1` carrying one bound
transition callback (value `100`, handle `0`), used for the transition
unbind. -/
def mC7 : DFSM Nat Nat Nat :=
  (do
    let m0 : DFSM Nat Nat Nat := DFSM.init false
    let m1 ← add_state m0 (some 0) false true
    let m2 ← add_state m1 (some 1) false false
    let m3 ← add_transition m2 (some 1) (some 1) (Tok.val 0)
    let r ← bind_callback_at_transition m3 (some 1) (Tok.val 0) 100
    pure r.2).toOption.getD (DFSM.init false)

/-- The spec scenario machine: states `{0, 1, 2, 3}` with `0` initial and
terminal, and a transition `add_transition(s, (s + d) % 4, d)` for every
state `s` and every `d` in `{0, 1, 2}`. -/
def mC8 : DFSM Nat Nat Nat :=
  (do
    let m0 : DFSM Nat Nat Nat := DFSM.init false
    let m1 ← add_state m0 (some 0) true true
    let m2 ← add_state m1 (some 1) false false
    let m3 ← add_state m2 (some 2) false false
    let m4 ← add_state m3 (some 3) false false
    let mt ← [0, 1, 2, 3].foldlM (fun mm s =>
      [0, 1, 2].foldlM (fun mm2 d =>
        add_transition mm2 (some s) (some ((s + d) % 4)) (Tok.val d)) mm) m4
    pure mt).toOption.getD (DFSM.init false)

/-- Example machine with every callback family populated, for the dispatch
order: state `0` is initial and terminal, state `1` is terminal, one
transition `0 --3--> 1`; the callback values are `10`-`17`. -/
def mC1 : DFSM Nat Nat Nat :=
  (do
    let m0 : DFSM Nat Nat Nat := DFSM.init false
    let m1 ← add_state m0 (some 0) true true
    let m2 ← add_state m1 (some 1) true false
    let m3 ← add_transition m2 (some 0) (some 1) (Tok.val 3)
    let r1 ← bind_callback_at_exit m3 (some 0) 10
    let r2 ← bind_callback_at_enter r1.2 (some 1) 11
    let r3 ← bind_callback_at_transition r2.2 (some 0) (Tok.val 3) 12
    let m4 := (bind_callback_always r3.2 13).2
    let m5 := (bind_callback_at_enter_termination m4 14).2
    let m6 := (bind_callback_at_exit_termination m5 15).2
    let m7 := (bind_callback_at_enter_initial m6 16).2
    let m8 := (bind_callback_at_exit_initial m7 17).2
    pure m8).toOption.getD (DFSM.init false)

theorem run_callbacks_const_false (ev : TransitionEvent S T P) (l : List C) :
    run_callbacks (fun _ => false) ev l = (l.map (fun c => (c, ev)), none) := by
  induction l with
  | nil => rfl
  | cons c cs ih => simp [run_callbacks, ih]

theorem dlookup_dset_self {K V : Type} [DecidableEq K]
    (d : List (K × V)) (k : K) (v : V) :
    dlookup (dset d k v) k = some v := by
  induction d with
  | nil => simp [dset, dlookup]
  | cons p d ih =>
    by_cases h : k = p.1
    · simp [dset, dlookup, h]
    · simp [dset, dlookup, h, ih]

theorem dlookup_dset_ne {K V : Type} [DecidableEq K]
    (d : List (K × V)) (k k0 : K) (v : V) (h : k0 ≠ k) :
    dlookup (dset d k v) k0 = dlookup d k0 := by
  induction d with
  | nil => simp [dset, dlookup, h]
  | cons p d ih =>
    by_cases hk : k = p.1
    · subst hk
      simp [dset, dlookup, h]
    · by_cases hk0 : k0 = p.1
      · simp [dset, dlookup, hk, hk0]
      · simp [dset, dlookup, hk, hk0, ih]

/-- Claim C1: for every successful transition from state A (the current
state) to state B via resolved key K, the callbacks invoked by `feed` are
exactly, in order: all always callbacks, all exit callbacks of A, all
transition callbacks of (A, K), all enter callbacks of B, then — in this
fixed order and each bucket only when its guard holds — the exit-terminal
callbacks (A terminal), the exit-initial callbacks (A initial), the
enter-terminal callbacks (B terminal) and the enter-initial callbacks (B
initial); each bucket fires in registration order and every invocation
receives the same transition event. -/
theorem claim_C1 (m : DFSM S T C) (token : Tok T) (payload : P)
    (K : Tok T) (B : S) (tA tB : Bool)
    (exA trK enB : List (Nat × C))
    (hinit : m.initial_state ≠ none)
    (hres : resolve m token = some (K, B))
    (hexA : dlookup m.exit_callbacks m.current_state = some exA)
    (htrK : dlookup m.transition_callbacks (m.current_state, K) = some trK)
    (henB : dlookup m.enter_callbacks (some B) = some enB)
    (htA : dlookup m.is_terminal m.current_state = some tA)
    (htB : dlookup m.is_terminal (some B) = some tB) :
    feed m token payload =
      FeedOutcome.accepted
        { entered_state := some B
          exited_state := m.current_state
          entered_state_is_terminal := tB
          token := K
          feed_count := m.feed_count + 1
          transition_count := m.transition_count + 1
          payload := payload }
        ((dvalues m.always_callbacks ++ dvalues exA ++ dvalues trK
            ++ dvalues enB
            ++ (if tA then dvalues m.exit_termination_callbacks else [])
            ++ (if m.current_state = m.initial_state then
                  dvalues m.exit_initial_callbacks
                else [])
            ++ (if tB then dvalues m.enter_termination_callbacks else [])
            ++ (if some B = m.initial_state then
                  dvalues m.enter_initial_callbacks
                else [])).map
          (fun c =>
            (c,
              { entered_state := some B
                exited_state := m.current_state
                entered_state_is_terminal := tB
                token := K
                feed_count := m.feed_count + 1
                transition_count := m.transition_count + 1
                payload := payload })))
        { m with
          feed_count := m.feed_count + 1
          transition_count := m.transition_count + 1
          current_state := some B } := by
  simp [feed, feedR, hres, hinit, run_callbacks_const_false,
        callback_generator, hexA, htrK, henB, htA, htB]

theorem claim_C1_witness :
    feed mC1 (Tok.val 3) (none : Option Nat) =
      FeedOutcome.accepted
        { entered_state := some 1
          exited_state := some 0
          entered_state_is_terminal := true
          token := Tok.val 3
          feed_count := 1
          transition_count := 1
          payload := (none : Option Nat) }
        ([13, 10, 12, 11, 15, 17, 14].map (fun c =>
          (c,
            { entered_state := some 1
              exited_state := some 0
              entered_state_is_terminal := true
              token := Tok.val 3
              feed_count := 1
              transition_count := 1
              payload := (none : Option Nat) })))
        { mC1 with
          feed_count := 1
          transition_count := 1
          current_state := some 1 } := by
  have h := claim_C1 mC1 (Tok.val 3) (none : Option Nat) (Tok.val 3) 1
    true true [(0, 10)] [(2, 12)] [(1, 11)]
    (by decide) (by decide) (by decide) (by decide) (by decide)
    (by decide) (by decide)
  exact h.trans (by decide)

/-- Claim C2 counterexample: in `mC2` both the exact key
`(current, token 0)` and the wildcard key exist in the transition table, yet
feeding token `0` fires the wildcard transition, not the exact one, because
the exact transition targets the Python `None` state and
`transitions.get(key, None)` cannot distinguish that target from an absent
key.  The event records the wildcard marker, not the exact token. -/
theorem claim_C2_counterexample :
    dlookup mC2.transitions (mC2.current_state, Tok.val 0) = some none ∧
    dlookup mC2.transitions (mC2.current_state, Tok.ell) = some (some 0) ∧
    resolve mC2 (Tok.val 0) = some (Tok.ell, 0) ∧
    (out_event (feed mC2 (Tok.val 0) (none : Option Nat))).map
        TransitionEvent.token = some Tok.ell ∧
    ¬ ((out_event (feed mC2 (Tok.val 0) (none : Option Nat))).map
        TransitionEvent.token = some (Tok.val 0)) := by
  decide

/-- Claim C2 (amended): transition lookup first evaluates
`transitions.get((A, token), None)`; because `get` returns `None` both when
the key is absent and when the stored target is the Python `None` state, the
wildcard key `(A, ...)` is tried exactly when that first lookup yields
`None` — so the exact transition takes precedence over a coexisting wildcard
whenever its target is not the `None` state.  If neither lookup yields a
state there is no match.  When the wildcard key matches, the event's token
attribute is the wildcard marker itself and the machine moves to the
wildcard's target. -/
theorem claim_C2_amended (m : DFSM S T C) (token : Tok T) (payload : P)
    (hinit : m.initial_state ≠ none) :
    (∀ key : Option S × Tok T,
        transitions_get m key = none ↔
          dlookup m.transitions key = none ∨
          dlookup m.transitions key = some none) ∧
    (∀ ns : S, transitions_get m (m.current_state, token) = some ns →
        resolve m token = some (token, ns)) ∧
    (∀ ns : S, transitions_get m (m.current_state, token) = none →
        transitions_get m (m.current_state, Tok.ell) = some ns →
        resolve m token = some (Tok.ell, ns)) ∧
    (transitions_get m (m.current_state, token) = none →
        transitions_get m (m.current_state, Tok.ell) = none →
        resolve m token = none) ∧
    (∀ (K : Tok T) (B : S), resolve m token = some (K, B) →
        (out_event (feed m token payload)).map TransitionEvent.token =
            some K ∧
        (out_machine (feed m token payload)).current_state = some B) := by
  refine ⟨?_, ?_, ?_, ?_, ?_⟩
  · intro key
    cases h : dlookup m.transitions key with
    | none => simp [transitions_get, h]
    | some v => cases v <;> simp [transitions_get, h]
  · intro ns h
    simp [resolve, h]
  · intro ns h1 h2
    simp [resolve, h1, h2]
  · intro h1 h2
    simp [resolve, h1, h2]
  · intro K B hres
    simp [feed, feedR, hres, hinit, run_callbacks_const_false, out_event,
          out_machine]

theorem claim_C2_amended_witness :
    mC2.initial_state ≠ none ∧
    (out_event (feed mC2 (Tok.val 0) (none : Option Nat))).map
        TransitionEvent.token = some Tok.ell ∧
    (out_machine (feed mC2 (Tok.val 0) (none : Option Nat))).current_state =
        some 0 := by
  refine ⟨by decide, ?_⟩
  have h := (claim_C2_amended mC2 (Tok.val 0) (none : Option Nat)
    (by decide)).2.2.2.2 Tok.ell 0 (by decide)
  exact ⟨h.1, h.2⟩

/-- Claim C3: for every engine whose initial state is set (so that `feed`
proceeds past its checks — in this embedding every token is hashable), one
`feed` call increments the feed count exactly once whatever the outcome;
the transition count is incremented exactly when a transition matched
(self-transitions included, since the statement covers every resolved
target); on a non-match without `raise_on_invalid_token` the call returns
`False` with the current state unchanged; and after `reset` both counters
are zero and the current state equals the initial state. -/
theorem claim_C3 (m : DFSM S T C) (token : Tok T) (payload : P)
    (hinit : m.initial_state ≠ none) :
    (out_machine (feed m token payload)).feed_count = m.feed_count + 1 ∧
    ((resolve m token).isSome = true →
      (out_machine (feed m token payload)).transition_count =
        m.transition_count + 1) ∧
    (resolve m token = none →
      (out_machine (feed m token payload)).transition_count =
        m.transition_count) ∧
    (resolve m token = none → m.raise_on_invalid_token = false →
      feed m token payload =
        FeedOutcome.rejected { m with feed_count := m.feed_count + 1 }) ∧
    (reset m).feed_count = 0 ∧
    (reset m).transition_count = 0 ∧
    (reset m).current_state = m.initial_state := by
  refine ⟨?_, ?_, ?_, ?_, ?_, ?_, ?_⟩
  · cases hres : resolve m token with
    | none =>
      by_cases hflag : m.raise_on_invalid_token <;>
        simp [feed, feedR, hinit, hres, hflag, out_machine]
    | some kb =>
      obtain ⟨K, B⟩ := kb
      simp [feed, feedR, hinit, hres, run_callbacks_const_false, out_machine]
  · intro h
    obtain ⟨kb, hres⟩ := Option.isSome_iff_exists.mp h
    obtain ⟨K, B⟩ := kb
    simp [feed, feedR, hinit, hres, run_callbacks_const_false, out_machine]
  · intro hres
    by_cases hflag : m.raise_on_invalid_token <;>
      simp [feed, feedR, hinit, hres, hflag, out_machine]
  · intro hres hflag
    simp [feed, feedR, hinit, hres, hflag]
  · simp [reset]
  · simp [reset]
  · simp [reset]

theorem claim_C3_witness :
    mC6.initial_state ≠ none ∧
    (out_machine (feed mC6 (Tok.val 1) (none : Option Nat))).feed_count = 1 ∧
    (resolve mC6 (Tok.val 9) = none →
      feed mC6 (Tok.val 9) (none : Option Nat) =
        FeedOutcome.rejected { mC6 with feed_count := 1 }) ∧
    (reset mC6).current_state = mC6.initial_state := by
  refine ⟨by decide, ?_, ?_, ?_⟩
  · have h := (claim_C3 mC6 (Tok.val 1) (none : Option Nat) (by decide)).1
    exact h.trans (by decide)
  · intro hres
    exact (claim_C3 mC6 (Tok.val 9) (none : Option Nat) (by decide)).2.2.2.1
      hres (by decide)
  · exact (claim_C3 mC6 (Tok.val 1) (none : Option Nat) (by decide)).2.2.2.2.2.2

theorem run_callbacks_raised (raises : C → Bool)
    (ev : TransitionEvent S T P) (l : List C)
    (done : List (C × TransitionEvent S T P)) (c : C)
    (h : run_callbacks raises ev l = (done, some c)) :
    raises c = true ∧
    (∀ pr ∈ done, raises pr.1 = false ∧ pr.2 = ev) ∧
    ∃ rest : List C, l = done.map Prod.fst ++ c :: rest := by
  induction l generalizing done with
  | nil => simp [run_callbacks] at h
  | cons a as ih =>
    by_cases ha : raises a
    · simp [run_callbacks, ha] at h
      obtain ⟨hd, hc⟩ := h
      subst hd hc
      exact ⟨ha, by simp, as, rfl⟩
    · simp [run_callbacks, ha] at h
      obtain ⟨hd, hr⟩ :
          done = (a, ev) :: (run_callbacks raises ev as).1 ∧
          (run_callbacks raises ev as).2 = some c := by
        constructor
        · exact h.1.symm
        · exact h.2
      obtain ⟨hc, hdone, rest, hl⟩ :=
        ih (run_callbacks raises ev as).1 (by rw [← hr])
      refine ⟨hc, ?_, rest, ?_⟩
      · intro pr hpr
        rw [hd] at hpr
        rcases List.mem_cons.mp hpr with h1 | h1
        · subst h1
          exact ⟨by simpa using ha, rfl⟩
        · exact hdone pr h1
      · rw [hd]
        simpa using congrArg (List.cons a) hl

/-- Claim C5 counterexample: in `mC5` the transition `0 --7--> 1` matches
and the always-callback raises; at the moment the error propagates both
counters are updated, but the current state is NOT updated for the
transition — it still holds the exited state `0`, not the entered state `1`,
because the source assigns `_current_state` only after the dispatch
comprehension returns.  This refutes the claim that the state change is
committed before callback dispatch begins. -/
theorem claim_C5_counterexample :
    dlookup mC5.transitions (some 0, Tok.val 7) = some (some 1) ∧
    mC5.current_state = some 0 ∧
    out_raised (feedR (fun _ => true) mC5 (Tok.val 7) (none : Option Nat)) =
      true ∧
    (out_machine (feedR (fun _ => true) mC5 (Tok.val 7)
        (none : Option Nat))).feed_count = 1 ∧
    (out_machine (feedR (fun _ => true) mC5 (Tok.val 7)
        (none : Option Nat))).transition_count = 1 ∧
    (out_machine (feedR (fun _ => true) mC5 (Tok.val 7)
        (none : Option Nat))).current_state = some 0 ∧
    ¬ ((out_machine (feedR (fun _ => true) mC5 (Tok.val 7)
        (none : Option Nat))).current_state = some 1) := by
  decide

/-- Claim C5 (amended): when an invoked callback raises during a matched
`feed`, the error propagates to the caller with the remaining dispatch
aborted (the completed invocations form a proper prefix of the generated
callback sequence, each receiving the same event, and the raising callback
is the first raising one); at that point both counters are already updated
for the transition, but the current state is NOT: it still holds the
pre-transition state, because the state change is committed only after
dispatch completes. -/
theorem claim_C5_amended (raises : C → Bool) (m : DFSM S T C) (token : Tok T)
    (payload : P) (c : C) (ev : TransitionEvent S T P)
    (done : List (C × TransitionEvent S T P)) (mm : DFSM S T C)
    (hr : feedR raises m token payload =
      FeedOutcome.raised c ev done mm) :
    mm = { m with
      feed_count := m.feed_count + 1
      transition_count := m.transition_count + 1 } ∧
    mm.current_state = m.current_state ∧
    raises c = true ∧
    (∀ pr ∈ done, raises pr.1 = false ∧ pr.2 = ev) ∧
    ∃ (rest : List C) (K : Tok T) (B : S),
      resolve m token = some (K, B) ∧
      callback_generator m (some B) K = done.map Prod.fst ++ c :: rest := by
  have hinit : ¬ m.initial_state = none := by
    intro h
    simp [feedR, h] at hr
  cases hres : resolve m token with
  | none =>
    by_cases hflag : m.raise_on_invalid_token <;>
      simp [feedR, hinit, hres, hflag] at hr
  | some kb =>
    obtain ⟨K, B⟩ := kb
    rcases hrc : run_callbacks raises
        { entered_state := some B
          exited_state := m.current_state
          entered_state_is_terminal :=
            (dlookup m.is_terminal (some B)).getD false
          token := K
          feed_count := m.feed_count + 1
          transition_count := m.transition_count + 1
          payload := payload }
        (callback_generator m (some B) K) with ⟨done0, ro⟩
    cases ro with
    | none =>
      simp [feedR, hinit, hres, hrc] at hr
    | some c0 =>
      simp only [feedR, if_neg hinit, hres, hrc] at hr
      obtain ⟨hc0, hev, hdone0, hmm⟩ :
          c0 = c ∧
          ({ entered_state := some B
             exited_state := m.current_state
             entered_state_is_terminal :=
               (dlookup m.is_terminal (some B)).getD false
             token := K
             feed_count := m.feed_count + 1
             transition_count := m.transition_count + 1
             payload := payload } : TransitionEvent S T P) = ev ∧
          done0 = done ∧
          ({ m with
            feed_count := m.feed_count + 1
            transition_count := m.transition_count + 1 } : DFSM S T C) = mm := by
        cases hr
        exact ⟨rfl, rfl, rfl, rfl⟩
      subst hc0 hdone0
      obtain ⟨hcr, hprs, rest, hgen⟩ :=
        run_callbacks_raised raises _ _ _ _ hrc
      refine ⟨hmm.symm, ?_, hcr, ?_, rest, K, B, rfl, hgen⟩
      · rw [← hmm]
      · intro pr hpr
        obtain ⟨h1, h2⟩ := hprs pr hpr
        exact ⟨h1, h2.trans hev⟩

theorem claim_C5_amended_witness :
    feedR (fun _ => true) mC5 (Tok.val 7) (none : Option Nat) =
      FeedOutcome.raised 100
        { entered_state := some 1
          exited_state := some 0
          entered_state_is_terminal := false
          token := Tok.val 7
          feed_count := 1
          transition_count := 1
          payload := (none : Option Nat) }
        []
        { mC5 with feed_count := 1, transition_count := 1 } ∧
    ({ mC5 with feed_count := 1, transition_count := 1 } :
        DFSM Nat Nat Nat).current_state = mC5.current_state := by
  refine ⟨by decide, ?_⟩
  exact (claim_C5_amended (fun _ => true) mC5 (Tok.val 7) (none : Option Nat)
    100
    { entered_state := some 1
      exited_state := some 0
      entered_state_is_terminal := false
      token := Tok.val 7
      feed_count := 1
      transition_count := 1
      payload := (none : Option Nat) }
    []
    { mC5 with feed_count := 1, transition_count := 1 }
    (by decide)).2.1

/-- Claim C6 counterexample: `feed_many` on two tokens with one payload does
feed the first token before raising the length-mismatch `ValueError`: the
machine observable at the error has feed count 1, transition count 1 and a
changed current state, refuting "no feed occurs" / "counters and current
state unchanged".  The `zip(..., strict=True)` in the source raises only
when one iterator is exhausted mid-iteration, after the earlier pairs were
already fed. -/
theorem claim_C6_counterexample :
    fm_err (feed_many mC6 [Tok.val 1, Tok.val 1]
        (some [(none : Option Nat)])) = some Err.zipStrict ∧
    (fm_machine (feed_many mC6 [Tok.val 1, Tok.val 1]
        (some [(none : Option Nat)]))).feed_count = 1 ∧
    (fm_machine (feed_many mC6 [Tok.val 1, Tok.val 1]
        (some [(none : Option Nat)]))).transition_count = 1 ∧
    (fm_machine (feed_many mC6 [Tok.val 1, Tok.val 1]
        (some [(none : Option Nat)]))).current_state = some 1 ∧
    mC6.feed_count = 0 ∧
    mC6.current_state = some 0 := by
  decide

/-- Claim C6 (amended): when the payload count differs from the token count,
`feed_many` raises the length-mismatch `ValueError`, but only after feeding
the common prefix pair by pair: its result is the sequential feeding of
`tokens.zip payloads` (the first `min` of the two lengths pairs — in
particular, with either list empty no token is fed), followed by the
mismatch error at the machine those feeds produced (or by the first feed
error, if one of those feeds raises). -/
theorem claim_C6_amended (m : DFSM S T C) (tokens : List (Tok T))
    (payloads : List P) [Inhabited P]
    (h : tokens.length ≠ payloads.length) :
    feed_many m tokens (some payloads) =
      match feedSeq m (tokens.zip payloads) with
      | Except.ok r => Except.error (Err.zipStrict, r.2)
      | Except.error e => Except.error e := by
  induction tokens generalizing payloads m with
  | nil =>
    cases payloads with
    | nil => simp at h
    | cons p ps => simp [feed_many, zip_strict_feed, feedSeq]
  | cons t ts ih =>
    cases payloads with
    | nil => simp [feed_many, zip_strict_feed, feedSeq]
    | cons p ps =>
      have h2 : ts.length ≠ ps.length := by simpa using h
      have ih2 := ih m ps h2
      cases hfe : feedE m t p with
      | error e =>
        simp [feed_many, zip_strict_feed, feedSeq, hfe]
      | ok bm =>
        obtain ⟨b, m2⟩ := bm
        have ih3 := ih m2 ps h2
        simp only [feed_many] at ih3
        cases hrec : feedSeq m2 (ts.zip ps) with
        | error e =>
          rw [hrec] at ih3
          simp only [List.zip] at hrec
          simp [feed_many, zip_strict_feed, feedSeq, hfe, ih3, hrec]
        | ok r =>
          rw [hrec] at ih3
          simp only [List.zip] at hrec
          simp [feed_many, zip_strict_feed, feedSeq, hfe, ih3, hrec]

theorem claim_C6_amended_witness :
    List.length [Tok.val 1, Tok.val 1] ≠
      List.length [(none : Option Nat)] ∧
    fm_err (feed_many mC6 [Tok.val 1, Tok.val 1]
        (some [(none : Option Nat)])) = some Err.zipStrict := by
  refine ⟨by decide, ?_⟩
  have h := claim_C6_amended mC6 [Tok.val 1, Tok.val 1]
    [(none : Option Nat)] (by decide)
  rw [h]
  decide

/-- Claim C7 (code bug): `unbind_callback_at_transition` can never unbind:
its body calls `self._raise_on_transition()` without the two required
positional arguments, so every call raises `TypeError` before any handle
check — here shown on a machine whose targeted bucket does hold the given
handle, where the claim requires the unbind to succeed. -/
theorem claim_C7_bug :
    dlookup mC7.transition_callbacks (some 1, Tok.val 0) = some [(0, 100)] ∧
    unbind_callback_at_transition mC7 (some 1) (Tok.val 0) 0 =
      Except.error Err.typeError ∧
    (∀ (state : Option Nat) (token : Tok Nat) (handle : Nat),
      unbind_callback_at_transition mC7 state token handle =
        Except.error Err.typeError) := by
  refine ⟨by decide, rfl, fun _ _ _ => rfl⟩

/-- Claim C8: on the scenario machine (states 0-3, state 0 initial and
terminal, transitions `(s, d) -> (s + d) % 4` for `d` in 0-2), feeding
`[1, 1, 1, 1]` accepts all four tokens and returns to state 0 with
`is_initial` true; feeding `[1, 1, 1, 42]` from a fresh start gives feed
count 4, transition count 3, with the last feed returning `False`. -/
theorem claim_C8 :
    fm_results (feed_many mC8 [Tok.val 1, Tok.val 1, Tok.val 1, Tok.val 1]
        (none : Option (List (Option Nat)))) =
      some [true, true, true, true] ∧
    (fm_machine (feed_many mC8 [Tok.val 1, Tok.val 1, Tok.val 1, Tok.val 1]
        (none : Option (List (Option Nat))))).current_state = some 0 ∧
    is_initial (fm_machine (feed_many mC8
        [Tok.val 1, Tok.val 1, Tok.val 1, Tok.val 1]
        (none : Option (List (Option Nat))))) = true ∧
    fm_results (feed_many mC8 [Tok.val 1, Tok.val 1, Tok.val 1, Tok.val 42]
        (none : Option (List (Option Nat)))) =
      some [true, true, true, false] ∧
    (fm_machine (feed_many mC8 [Tok.val 1, Tok.val 1, Tok.val 1, Tok.val 42]
        (none : Option (List (Option Nat))))).feed_count = 4 ∧
    (fm_machine (feed_many mC8 [Tok.val 1, Tok.val 1, Tok.val 1, Tok.val 42]
        (none : Option (List (Option Nat))))).transition_count = 3 := by
  decide

theorem add_state_ok_fields (m : DFSM S T C) (s : Option S) (t : Bool)
    (mm : DFSM S T C) (h : add_state m s t false = Except.ok mm) :
    mm.initial_state = m.initial_state ∧
    mm.current_state = m.current_state ∧
    mm.is_terminal = dset m.is_terminal s t := by
  rw [add_state] at h
  split at h
  · cases h
  · rw [if_neg (by simp)] at h
    cases h
    exact ⟨rfl, rfl, rfl⟩

theorem add_transition_ok_fields (m : DFSM S T C) (a b : Option S)
    (tok : Tok T) (mm : DFSM S T C)
    (h : add_transition m a b tok = Except.ok mm) :
    mm.initial_state = m.initial_state ∧
    mm.current_state = m.current_state ∧
    mm.is_terminal = m.is_terminal := by
  rw [add_transition] at h
  split at h
  · cases h
  · split at h
    · cases h
    · split at h
      · cases h
      · cases h
        exact ⟨rfl, rfl, rfl⟩

theorem build_keeps_none (m : DFSM S T C) (ops : List (BuildOp S T))
    (hops : ops.all benign = true)
    (h1 : m.initial_state = none) (h2 : m.current_state = none)
    (h3 : dlookup m.is_terminal none = none) :
    (apply_build m ops).initial_state = none ∧
    (apply_build m ops).current_state = none ∧
    dlookup (apply_build m ops).is_terminal none = none := by
  induction ops generalizing m with
  | nil => exact ⟨h1, h2, h3⟩
  | cons op ops ih =>
    simp only [List.all_cons, Bool.and_eq_true] at hops
    obtain ⟨hop, hops⟩ := hops
    cases op with
    | addStateOp s t i =>
      simp only [benign, Bool.and_eq_true, Bool.not_eq_true'] at hop
      obtain ⟨hi, hs⟩ := hop
      subst hi
      cases hadd : add_state m s t false with
      | error e =>
        simp only [apply_build, hadd]
        exact ih m hops h1 h2 h3
      | ok mm =>
        obtain ⟨f1, f2, f3⟩ := add_state_ok_fields m s t mm hadd
        simp only [apply_build, hadd]
        refine ih mm hops (f1.trans h1) (f2.trans h2) ?_
        rw [f3]
        obtain ⟨s0, rfl⟩ := Option.isSome_iff_exists.mp hs
        rw [dlookup_dset_ne _ _ _ _ (by simp)]
        exact h3
    | addTransitionOp a b tok =>
      cases hadd : add_transition m a b tok with
      | error e =>
        simp only [apply_build, hadd]
        exact ih m hops h1 h2 h3
      | ok mm =>
        obtain ⟨f1, f2, f3⟩ := add_transition_ok_fields m a b tok mm hadd
        simp only [apply_build, hadd]
        exact ih mm hops (f1.trans h1) (f2.trans h2) (f3 ▸ h3)

/-- Claim C9: on every engine built by `add_state` / `add_transition` calls
none of which registers an initial state or registers Python `None` as a
state (calls that raise leave the engine unchanged), the current state is
the startup value `None`, `is_initial` is `True` (the current state equals
the initial state, both `None`), and `is_terminated` raises `KeyError`
instead of returning a boolean, because `None` is not a key of the
terminal-flag dict. -/
theorem claim_C9 (flag : Bool) (ops : List (BuildOp S T))
    (hops : ops.all benign = true) :
    (apply_build (DFSM.init flag : DFSM S T C) ops).current_state = none ∧
    is_initial (apply_build (DFSM.init flag : DFSM S T C) ops) = true ∧
    is_terminated (apply_build (DFSM.init flag : DFSM S T C) ops) =
      Except.error Err.keyErrorLookup := by
  obtain ⟨h1, h2, h3⟩ :=
    build_keeps_none (DFSM.init flag : DFSM S T C) ops hops rfl rfl rfl
  refine ⟨h2, ?_, ?_⟩
  · simp [is_initial, h1, h2]
  · simp [is_terminated, h2, h3]

theorem claim_C9_witness :
    ([BuildOp.addStateOp (some 5) true false,
      BuildOp.addTransitionOp (some 5) (some 5) (Tok.val 1)] :
        List (BuildOp Nat Nat)).all benign = true ∧
    (apply_build (DFSM.init false : DFSM Nat Nat Nat)
        [BuildOp.addStateOp (some 5) true false,
         BuildOp.addTransitionOp (some 5) (some 5) (Tok.val 1)]).current_state
      = none ∧
    is_terminated (apply_build (DFSM.init false : DFSM Nat Nat Nat)
        [BuildOp.addStateOp (some 5) true false,
         BuildOp.addTransitionOp (some 5) (some 5) (Tok.val 1)]) =
      Except.error Err.keyErrorLookup := by
  refine ⟨by decide, ?_, ?_⟩
  · exact (claim_C9 false
      [BuildOp.addStateOp (some 5) true false,
       BuildOp.addTransitionOp (some 5) (some 5) (Tok.val 1)] (by decide)).1
  · exact (claim_C9 false
      [BuildOp.addStateOp (some 5) true false,
       BuildOp.addTransitionOp (some 5) (some 5) (Tok.val 1)] (by decide)).2.2

theorem zip_strict_feed_eq_feedSeq (tokens : List (Tok T)) (payloads : List P)
    (m : DFSM S T C) (h : tokens.length = payloads.length) :
    zip_strict_feed m tokens payloads = feedSeq m (tokens.zip payloads) := by
  induction tokens generalizing payloads m with
  | nil =>
    cases payloads with
    | nil => rfl
    | cons p ps => simp at h
  | cons t ts ih =>
    cases payloads with
    | nil => simp at h
    | cons p ps =>
      have h2 : ts.length = ps.length := by simpa using h
      cases hfe : feedE m t p with
      | error e => simp [zip_strict_feed, feedSeq, hfe]
      | ok bm =>
        obtain ⟨b, m2⟩ := bm
        have ih2 := ih ps m2 h2
        simp only [List.zip] at ih2
        simp [zip_strict_feed, feedSeq, hfe, ih2]

theorem feedSeq_ok_length (l : List (Tok T × P)) (m : DFSM S T C)
    (r : List Bool × DFSM S T C) (h : feedSeq m l = Except.ok r) :
    r.1.length = l.length := by
  induction l generalizing m r with
  | nil =>
    simp only [feedSeq] at h
    cases h
    rfl
  | cons tp rest ih =>
    obtain ⟨t, p⟩ := tp
    simp only [feedSeq] at h
    split at h
    · cases h
    · split at h
      · cases h
      · cases h
        simpa using ih _ _ (by assumption)

/-- Claim C10: with matching lengths (or with `payloads` omitted, in which
case a `None` payload list of the tokens' length is used), `feed_many`
returns exactly the booleans obtained by feeding each token in input order,
the i-th with the i-th payload, the i-th feed running on the machine the
previous feeds produced; the result list has one boolean per token. -/
theorem claim_C10 (m : DFSM S T C) (tokens : List (Tok T))
    (payloads : List P) [Inhabited P]
    (h : tokens.length = payloads.length) :
    feed_many m tokens (some payloads) = feedSeq m (tokens.zip payloads) ∧
    feed_many m tokens (none : Option (List P)) =
      feedSeq m (tokens.zip (List.replicate tokens.length (default : P))) ∧
    (∀ r, feedSeq m (tokens.zip payloads) = Except.ok r →
      r.1.length = tokens.length) := by
  refine ⟨?_, ?_, ?_⟩
  · exact zip_strict_feed_eq_feedSeq tokens payloads m h
  · exact zip_strict_feed_eq_feedSeq tokens
      (List.replicate tokens.length (default : P)) m (by simp)
  · intro r hr
    have := feedSeq_ok_length _ _ _ hr
    rw [this]
    simp [h]

theorem claim_C10_witness :
    List.length [Tok.val 1, Tok.val 2] =
      List.length [(none : Option Nat), some 4] ∧
    feed_many mC6 [Tok.val 1, Tok.val 2]
        (some [(none : Option Nat), some 4]) =
      feedSeq mC6 ([Tok.val 1, Tok.val 2].zip [(none : Option Nat), some 4]) := by
  exact ⟨by decide,
    (claim_C10 mC6 [Tok.val 1, Tok.val 2] [(none : Option Nat), some 4]
      (by decide)).1⟩

theorem feed_no_init (m : DFSM S T C) (t : Tok T) (p : P)
    (hinit : m.initial_state = none) :
    feed m t p = FeedOutcome.err Err.noInitialState m := by
  simp [feed, feedR, hinit]

theorem feed_no_match_raise (m : DFSM S T C) (t : Tok T) (p : P)
    (hinit : ¬ m.initial_state = none) (hres : resolve m t = none)
    (hflag : m.raise_on_invalid_token = true) :
    feed m t p =
      FeedOutcome.err Err.invalidToken
        { m with feed_count := m.feed_count + 1 } := by
  simp [feed, feedR, hinit, hres, hflag]

theorem feed_no_match_false (m : DFSM S T C) (t : Tok T) (p : P)
    (hinit : ¬ m.initial_state = none) (hres : resolve m t = none)
    (hflag : m.raise_on_invalid_token = false) :
    feed m t p =
      FeedOutcome.rejected { m with feed_count := m.feed_count + 1 } := by
  simp [feed, feedR, hinit, hres, hflag]

theorem feed_match_eq (m : DFSM S T C) (t : Tok T) (p : P) (K : Tok T) (B : S)
    (hinit : ¬ m.initial_state = none) (hres : resolve m t = some (K, B)) :
    feed m t p =
      FeedOutcome.accepted
        { entered_state := some B
          exited_state := m.current_state
          entered_state_is_terminal :=
            (dlookup m.is_terminal (some B)).getD false
          token := K
          feed_count := m.feed_count + 1
          transition_count := m.transition_count + 1
          payload := p }
        ((callback_generator m (some B) K).map (fun c =>
          (c,
            { entered_state := some B
              exited_state := m.current_state
              entered_state_is_terminal :=
                (dlookup m.is_terminal (some B)).getD false
              token := K
              feed_count := m.feed_count + 1
              transition_count := m.transition_count + 1
              payload := p })))
        { m with
          feed_count := m.feed_count + 1
          transition_count := m.transition_count + 1
          current_state := some B } := by
  simp [feed, feedR, hinit, hres, run_callbacks_const_false]

theorem dlookup_foldl_dset_const {K V : Type} [DecidableEq K] (keys : List K)
    (d : List (K × V)) (v0 : V) (k : K)
    (h : k ∈ keys ∨ dlookup d k = some v0) :
    dlookup (keys.foldl (fun acc s => dset acc s v0) d) k = some v0 := by
  induction keys generalizing d with
  | nil =>
    rcases h with h | h
    · simp at h
    · exact h
  | cons a as ih =>
    simp only [List.foldl_cons]
    apply ih
    rcases h with h | h
    · rcases List.mem_cons.mp h with h1 | h1
      · right
        subst h1
        exact dlookup_dset_self d k v0
      · left
        exact h1
    · by_cases hk : k = a
      · right
        subst hk
        exact dlookup_dset_self d k v0
      · right
        rw [dlookup_dset_ne d a k v0 hk]
        exact h

theorem run_op_coreEq (m1 m2 : DFSM S T C) (op : Op T P) (h : coreEq m1 m2) :
    (run_op m1 op).1 = (run_op m2 op).1 ∧
    coreEq (run_op m1 op).2 (run_op m2 op).2 := by
  obtain ⟨e1, e2, e3, e4, e5, e6, e7⟩ := h
  cases op with
  | feedOp t p =>
    have hres : resolve m1 t = resolve m2 t := by
      simp [resolve, transitions_get, e2, e4]
    by_cases hinit : m2.initial_state = none
    · have hinit1 : m1.initial_state = none := e3.trans hinit
      simp only [run_op, feedE, feed_no_init m1 t p hinit1,
        feed_no_init m2 t p hinit]
      exact ⟨trivial, e1, e2, e3, e4, e5, e6, e7⟩
    · have hinit1 : ¬ m1.initial_state = none := by
        rw [e3]
        exact hinit
      cases hres2 : resolve m2 t with
      | none =>
        have hres1 : resolve m1 t = none := hres.trans hres2
        cases hflag : m2.raise_on_invalid_token with
        | true =>
          have hflag1 : m1.raise_on_invalid_token = true := e7.trans hflag
          simp only [run_op, feedE,
            feed_no_match_raise m1 t p hinit1 hres1 hflag1,
            feed_no_match_raise m2 t p hinit hres2 hflag]
          exact ⟨trivial, e1, e2, e3, e4, by rw [e5], e6, e7⟩
        | false =>
          have hflag1 : m1.raise_on_invalid_token = false := e7.trans hflag
          simp only [run_op, feedE,
            feed_no_match_false m1 t p hinit1 hres1 hflag1,
            feed_no_match_false m2 t p hinit hres2 hflag]
          exact ⟨trivial, e1, e2, e3, e4, by rw [e5], e6, e7⟩
      | some kb =>
        obtain ⟨K, B⟩ := kb
        have hres1 : resolve m1 t = some (K, B) := hres.trans hres2
        simp only [run_op, feedE, feed_match_eq m1 t p K B hinit1 hres1,
          feed_match_eq m2 t p K B hinit hres2]
        exact ⟨trivial, e1, e2, e3, rfl, by rw [e5], by rw [e6], e7⟩
  | resetOp =>
    exact ⟨rfl, by simp [run_op, reset, e1], by simp [run_op, reset, e2],
      by simp [run_op, reset, e3], by simp [run_op, reset, e3],
      by simp [run_op, reset], by simp [run_op, reset],
      by simp [run_op, reset, e7]⟩
  | currentStateOp => exact ⟨by simp [run_op, e4], e1, e2, e3, e4, e5, e6, e7⟩
  | isTerminatedOp =>
    exact ⟨by simp [run_op, is_terminated, e1, e4], e1, e2, e3, e4, e5, e6, e7⟩
  | isInitialOp =>
    exact ⟨by simp [run_op, is_initial, e3, e4], e1, e2, e3, e4, e5, e6, e7⟩
  | feedCountOp => exact ⟨by simp [run_op, e5], e1, e2, e3, e4, e5, e6, e7⟩
  | transitionCountOp =>
    exact ⟨by simp [run_op, e6], e1, e2, e3, e4, e5, e6, e7⟩
  | stateAmountOp =>
    exact ⟨by simp [run_op, state_amount, e1], e1, e2, e3, e4, e5, e6, e7⟩
  | transitionAmountOp =>
    exact ⟨by simp [run_op, transition_amount, e2], e1, e2, e3, e4, e5, e6, e7⟩

theorem run_ops_coreEq (ops : List (Op T P)) (m1 m2 : DFSM S T C)
    (h : coreEq m1 m2) : (run_ops m1 ops).1 = (run_ops m2 ops).1 := by
  induction ops generalizing m1 m2 with
  | nil => rfl
  | cons op ops ih =>
    obtain ⟨ho, hc⟩ := run_op_coreEq m1 m2 op h
    simp only [run_ops, ho, ih _ _ hc]

/-- Claim C4: reconstructing an engine from its picklable snapshot preserves
the terminal-flag map, the transition map, the initial state, the current
state, the feed count, the transition count and the
`raise_on_invalid_token` flag; rebuilds an empty callback bucket for every
known state (enter and exit) and every known transition; and the
reconstructed engine returns the same observations as the original under
every subsequent sequence of feed, reset and accessor calls (the snapshot
can be taken after any prior operations, since the statement covers every
engine value). -/
theorem claim_C4 (m : DFSM S T C) :
    (to_state_machine C (from_state_machine m)).is_terminal = m.is_terminal ∧
    (to_state_machine C (from_state_machine m)).transitions = m.transitions ∧
    (to_state_machine C (from_state_machine m)).initial_state =
      m.initial_state ∧
    (to_state_machine C (from_state_machine m)).current_state =
      m.current_state ∧
    (to_state_machine C (from_state_machine m)).feed_count = m.feed_count ∧
    (to_state_machine C (from_state_machine m)).transition_count =
      m.transition_count ∧
    (to_state_machine C (from_state_machine m)).raise_on_invalid_token =
      m.raise_on_invalid_token ∧
    (∀ s, s ∈ dkeys m.is_terminal →
      dlookup (to_state_machine C (from_state_machine m)).enter_callbacks s =
        some [] ∧
      dlookup (to_state_machine C (from_state_machine m)).exit_callbacks s =
        some []) ∧
    (∀ k, k ∈ dkeys m.transitions →
      dlookup
          (to_state_machine C (from_state_machine m)).transition_callbacks k =
        some []) ∧
    (∀ ops : List (Op T P),
      (run_ops (to_state_machine C (from_state_machine m)) ops).1 =
        (run_ops m ops).1) := by
  refine ⟨rfl, rfl, rfl, rfl, rfl, rfl, rfl, ?_, ?_, ?_⟩
  · intro s hs
    exact ⟨dlookup_foldl_dset_const _ [] [] s (Or.inl hs),
      dlookup_foldl_dset_const _ [] [] s (Or.inl hs)⟩
  · intro k hk
    exact dlookup_foldl_dset_const _ [] [] k (Or.inl hk)
  · intro ops
    exact run_ops_coreEq ops _ m ⟨rfl, rfl, rfl, rfl, rfl, rfl, rfl⟩

theorem claim_C4_witness :
    (some 0) ∈ dkeys mC6.is_terminal ∧
    dlookup (to_state_machine Nat (from_state_machine mC6)).enter_callbacks
        (some 0) = some [] ∧
    (run_ops (to_state_machine Nat (from_state_machine mC6))
        [Op.feedOp (Tok.val 1) (none : Option Nat), Op.currentStateOp,
         Op.resetOp, Op.feedCountOp]).1 =
      (run_ops mC6
        [Op.feedOp (Tok.val 1) (none : Option Nat), Op.currentStateOp,
         Op.resetOp, Op.feedCountOp]).1 := by
  refine ⟨by decide, ?_, ?_⟩
  · exact ((@claim_C4 Nat Nat Nat (Option Nat) _ _
      mC6).2.2.2.2.2.2.2.1 (some 0) (by decide)).1
  · exact (@claim_C4 Nat Nat Nat (Option Nat) _ _ mC6).2.2.2.2.2.2.2.2.2
      [Op.feedOp (Tok.val 1) (none : Option Nat), Op.currentStateOp,
       Op.resetOp, Op.feedCountOp]
